import Mathlib

/-!
# Verification of `src/cli/Sources/CResponsibility/responsibility.c`

The translation unit declares one external OS primitive and defines one
one-line pass-through shim:

```c
#define POSIX_SPAWN_SETDISCLAIM 1

extern int responsibility_spawnattrs_setdisclaim(posix_spawnattr_t *attr, int disclaim);

int terminator_spawnattr_setdisclaim(posix_spawnattr_t *attr, int disclaim) {
    return responsibility_spawnattrs_setdisclaim(attr, disclaim);
}
```

We embed the shim shallowly.  The OS primitive is external (declared but not
defined in this repository), so the shim is parameterised by it, exactly in
the way a test double replaces the linked symbol.  Three observations of the
same one-line body are formalised:

* `terminator_spawnattr_setdisclaim` — the shim together with the trace of
  actions its own body performs (the embedding language can express calls,
  allocation, deallocation and dereference; the body emits only the call);
* `terminator_spawnattr_setdisclaimState` — the shim run against a stateful
  model of the OS world, used with a spec-modelled OS primitive;
* `terminator_spawnattr_setdisclaimOpt` — the shim run against a possibly
  non-returning OS primitive (`none` = the OS call never returns).
-/

/-- A pointer value (a machine address).  `posix_spawnattr_t *attr` is passed
by value as an address; the shim never looks behind it. -/
abbrev Ptr := Nat

/-- The null pointer. -/
def NULL : Ptr := 0

/-- `#define POSIX_SPAWN_SETDISCLAIM 1` — defined in the translation unit for
clarity, never used by its code. -/
def POSIX_SPAWN_SETDISCLAIM : Int := 1

/-- Actions a C function body of this translation unit could perform, as far
as the claims need to distinguish them: calling the OS primitive with given
arguments, allocating or freeing memory, or dereferencing (reading or writing
through) a pointer. -/
inductive Event where
  | callOS (attr : Ptr) (disclaim : Int)
  | alloc (p : Ptr)
  | free (p : Ptr)
  | deref (p : Ptr)
  deriving DecidableEq, Repr

/-- Is this event a memory allocation? -/
def Event.isAlloc : Event → Bool
  | .alloc _ => true
  | _ => false

/-- Is this event a memory deallocation? -/
def Event.isFree : Event → Bool
  | .free _ => true
  | _ => false

/-- Is this event a dereference (a read or write through a pointer)? -/
def Event.isDeref : Event → Bool
  | .deref _ => true
  | _ => false

/-- Is this event a call of the OS primitive? -/
def Event.isCallOS : Event → Bool
  | .callOS _ _ => true
  | _ => false

/-- An OS primitive as the shim sees it through the linked symbol: a function
from the two arguments to the returned status code.  A test double replacing
the OS symbol is exactly a value of this type. -/
abbrev OSPrim := Ptr → Int → Int

/-- Shallow embedding of
`int terminator_spawnattr_setdisclaim(posix_spawnattr_t *attr, int disclaim)`
together with the trace of actions its body performs.  The body is the single
statement `return responsibility_spawnattrs_setdisclaim(attr, disclaim);`:
it calls the OS primitive once with its own two arguments unchanged and
returns the status code unchanged. -/
def terminator_spawnattr_setdisclaim (os : OSPrim) (attr : Ptr) (disclaim : Int) :
    Int × List Event :=
  (os attr disclaim, [Event.callOS attr disclaim])

/-- The disclaim values forwarded to the OS primitive in a trace. -/
def forwardedDisclaims : List Event → List Int
  | [] => []
  | .callOS _ d :: es => d :: forwardedDisclaims es
  | _ :: es => forwardedDisclaims es

/-- The attribute-handle values forwarded to the OS primitive in a trace. -/
def forwardedAttrs : List Event → List Ptr
  | [] => []
  | .callOS a _ :: es => a :: forwardedAttrs es
  | _ :: es => forwardedAttrs es

/-- The OS world as the spec describes it: OS-private state behind each
attributes handle.  `disclaimFlag p` is the disclaim flag the OS keeps behind
handle `p`; `allocated p` records whether handle `p` is currently a valid,
non-released attributes handle. -/
structure OSState where
  disclaimFlag : Ptr → Bool
  allocated : Ptr → Bool

/-- A stateful OS primitive: from the OS world and the two arguments to the
returned status code and the new OS world. -/
abbrev OSPrimState := OSState → Ptr → Int → Int × OSState

/-- Modelled from the spec: `responsibility_spawnattrs_setdisclaim` is
declared `extern` in the translation unit but defined only by the operating
system, so its behaviour is taken from the spec's words: it "mutates
OS-private state associated with the attributes handle", recording the
boolean meaning of the flag ("nonzero means disclaim, zero means do not")
behind the handle, and returns status `0` on supported OS versions. -/
def responsibility_spawnattrs_setdisclaim (st : OSState) (attr : Ptr) (disclaim : Int) :
    Int × OSState :=
  (0, { st with
        disclaimFlag := fun p => if p = attr then decide (disclaim ≠ 0) else st.disclaimFlag p })

/-- Shallow embedding of the shim run against a stateful OS primitive: the
body forwards both arguments to the primitive and returns its status, so the
OS world is transformed exactly as the primitive transforms it. -/
def terminator_spawnattr_setdisclaimState (os : OSPrimState) (st : OSState)
    (attr : Ptr) (disclaim : Int) : Int × OSState :=
  os st attr disclaim

/-- Shallow embedding of the shim run against a possibly non-returning OS
primitive (`none` = the OS call never returns).  The body is the tail call
`return responsibility_spawnattrs_setdisclaim(attr, disclaim);`, so the shim
returns exactly when the primitive returns, with its value. -/
def terminator_spawnattr_setdisclaimOpt (os : Ptr → Int → Option Int)
    (attr : Ptr) (disclaim : Int) : Option Int :=
  os attr disclaim

/-- A concrete OS world for witnesses: no handle has the disclaim flag set,
and exactly handle `1` is allocated. -/
def sampleState : OSState :=
  { disclaimFlag := fun _ => false, allocated := fun p => decide (p = 1) }

/-! ## Theorems, one per claim -/

/-- **C1.** For every attributes handle and every disclaim value,
`terminator_spawnattr_setdisclaim` returns exactly the integer the underlying
OS primitive returns for that call (here the primitive is an arbitrary test
double `os`), with no modification of the status code: pass-through
identity. -/
theorem C1_passthrough_identity (os : OSPrim) (attr : Ptr) (disclaim : Int) :
    (terminator_spawnattr_setdisclaim os attr disclaim).1 = os attr disclaim :=
  rfl

/-- **C2.** For every invocation, the shim's body performs exactly one
action: a single call of the OS primitive with the same two parameters it
received, unchanged — its trace is exactly one `callOS attr disclaim` event
and nothing else. -/
theorem C2_calls_once_unchanged (os : OSPrim) (attr : Ptr) (disclaim : Int) :
    (terminator_spawnattr_setdisclaim os attr disclaim).2 = [Event.callOS attr disclaim] :=
  rfl

/-- **C3.** The shim raises no error locally and cannot fail independently of
the underlying call: whatever status the OS primitive produces for the given
arguments — success or any error code — the shim returns that very integer,
so two OS doubles that agree at the call's arguments yield the same result,
and the shim's own trace holds no action besides the one call that could
introduce an error branch. -/
theorem C3_no_local_error (os os' : OSPrim) (attr : Ptr) (disclaim : Int)
    (h : os attr disclaim = os' attr disclaim) :
    (terminator_spawnattr_setdisclaim os attr disclaim).1 =
      (terminator_spawnattr_setdisclaim os' attr disclaim).1 ∧
    ∀ e ∈ (terminator_spawnattr_setdisclaim os attr disclaim).2, e.isCallOS = true := by
  refine ⟨h, ?_⟩
  intro e he
  simp only [terminator_spawnattr_setdisclaim, List.mem_singleton] at he
  subst he
  rfl

/-- Witness for C3 at concrete inputs: two doubles agreeing at the call. -/
theorem C3_no_local_error_witness :
    (terminator_spawnattr_setdisclaim (fun _ _ => 7) 1 1).1 =
      (terminator_spawnattr_setdisclaim (fun a d => a + d + 5) 1 1).1 ∧
    ∀ e ∈ (terminator_spawnattr_setdisclaim (fun _ _ => 7) 1 1).2, e.isCallOS = true :=
  C3_no_local_error (fun _ _ => 7) (fun a d => a + d + 5) 1 1 (by decide)

/-- **C4.** The shim neither allocates, frees, nor dereferences through the
attributes handle — its trace holds no `alloc`, `free` or `deref` event —
and it does not take ownership of the handle: run against any stateful OS
primitive that keeps the handle allocated (the spec-modelled one does), the
handle the caller holds is still a valid, allocated handle afterwards. -/
theorem C4_no_ownership_handle_valid (os : OSPrim) (attr : Ptr) (disclaim : Int)
    (st : OSState) (h : st.allocated attr = true) :
    (∀ e ∈ (terminator_spawnattr_setdisclaim os attr disclaim).2,
        e.isAlloc = false ∧ e.isFree = false ∧ e.isDeref = false) ∧
    ((terminator_spawnattr_setdisclaimState responsibility_spawnattrs_setdisclaim
        st attr disclaim).2).allocated attr = true := by
  refine ⟨?_, h⟩
  intro e he
  simp only [terminator_spawnattr_setdisclaim, List.mem_singleton] at he
  subst he
  exact ⟨rfl, rfl, rfl⟩

/-- Witness for C4 at concrete inputs: handle `1` is allocated in
`sampleState` and stays allocated and untouched by the shim itself. -/
theorem C4_no_ownership_handle_valid_witness :
    (∀ e ∈ (terminator_spawnattr_setdisclaim (fun _ _ => 0) 1 1).2,
        e.isAlloc = false ∧ e.isFree = false ∧ e.isDeref = false) ∧
    ((terminator_spawnattr_setdisclaimState responsibility_spawnattrs_setdisclaim
        sampleState 1 1).2).allocated 1 = true :=
  C4_no_ownership_handle_valid (fun _ _ => 0) 1 1 sampleState (by decide)

/-- **C5.** The shim is stateless and deterministic: it has no state
parameter of its own, so any two invocations — even against two different OS
doubles — with the same attributes handle and the same disclaim value return
the same status code as soon as the underlying primitives behave the same at
those arguments. -/
theorem C5_stateless_deterministic (os₁ os₂ : OSPrim) (attr : Ptr) (disclaim : Int)
    (h : os₁ attr disclaim = os₂ attr disclaim) :
    (terminator_spawnattr_setdisclaim os₁ attr disclaim).1 =
      (terminator_spawnattr_setdisclaim os₂ attr disclaim).1 :=
  h

/-- Witness for C5 at concrete inputs. -/
theorem C5_stateless_deterministic_witness :
    (terminator_spawnattr_setdisclaim (fun _ _ => 3) 2 0).1 =
      (terminator_spawnattr_setdisclaim (fun a _ => a + 1) 2 0).1 :=
  C5_stateless_deterministic (fun _ _ => 3) (fun a _ => a + 1) 2 0 (by decide)

/-- **C6.** Invoking the shim with `disclaim = 0` on a handle whose
OS-private disclaim flag is already `false` is a no-op: against the
spec-modelled OS primitive it returns `0` and leaves the OS world exactly as
it was. -/
theorem C6_false_idempotent (st : OSState) (attr : Ptr)
    (h : st.disclaimFlag attr = false) :
    terminator_spawnattr_setdisclaimState responsibility_spawnattrs_setdisclaim
      st attr 0 = (0, st) := by
  simp only [terminator_spawnattr_setdisclaimState, responsibility_spawnattrs_setdisclaim]
  refine Prod.ext rfl ?_
  cases st with
  | mk flag alloc =>
    simp only [OSState.mk.injEq]
    constructor
    · funext p
      by_cases hp : p = attr
      · subst hp
        simpa using h.symm
      · simp [hp]
    · trivial

/-- Witness for C6 at concrete inputs: in `sampleState` every flag is
`false`, and the call with `disclaim = 0` on handle `1` returns `0` and
changes nothing. -/
theorem C6_false_idempotent_witness :
    terminator_spawnattr_setdisclaimState responsibility_spawnattrs_setdisclaim
      sampleState 1 0 = (0, sampleState) :=
  C6_false_idempotent sampleState 1 rfl

/-- **C7.** Every invocation of the shim terminates provided the underlying
OS primitive returns: against a possibly non-returning primitive, if the
primitive returns status `r` at the given arguments then the shim returns
`r`; and the shim's own body performs exactly one action — a single call,
with no loop, recursion, retry or wait of its own. -/
theorem C7_terminates (os : Ptr → Int → Option Int) (os' : OSPrim)
    (attr : Ptr) (disclaim : Int) (r : Int) (h : os attr disclaim = some r) :
    terminator_spawnattr_setdisclaimOpt os attr disclaim = some r ∧
    (terminator_spawnattr_setdisclaim os' attr disclaim).2.length = 1 :=
  ⟨h, rfl⟩

/-- Witness for C7 at concrete inputs. -/
theorem C7_terminates_witness :
    terminator_spawnattr_setdisclaimOpt (fun _ _ => some 0) 1 1 = some 0 ∧
    (terminator_spawnattr_setdisclaim (fun _ _ => 0) 1 1).2.length = 1 :=
  C7_terminates (fun _ _ => some 0) (fun _ _ => 0) 1 1 0 rfl

/-- **C8.** The disclaim parameter is not restricted to `{0, 1}`: for every
integer value of `disclaim` — `2` and `-1` included — the shim forwards that
exact integer to the OS primitive, with no normalising, clamping or
comparison against the constant `POSIX_SPAWN_SETDISCLAIM` (which has value
`1` and is never used by the code: the forwarded value is `disclaim` itself
even when `disclaim ≠ POSIX_SPAWN_SETDISCLAIM`). -/
theorem C8_forwards_any_integer (os : OSPrim) (attr : Ptr) (disclaim : Int) :
    forwardedDisclaims (terminator_spawnattr_setdisclaim os attr disclaim).2 = [disclaim] ∧
    POSIX_SPAWN_SETDISCLAIM = 1 ∧
    forwardedDisclaims (terminator_spawnattr_setdisclaim os attr 2).2 = [2] ∧
    forwardedDisclaims (terminator_spawnattr_setdisclaim os attr (-1)).2 = [-1] :=
  ⟨rfl, rfl, rfl, rfl⟩

/-- **C9.** The shim performs no validation of the attributes handle: for
every pointer value, `NULL` included, it forwards that very pointer to the OS
primitive unchecked — the trace is the unguarded single call, so there is no
guarded error branch. -/
theorem C9_no_handle_validation (os : OSPrim) (attr : Ptr) (disclaim : Int) :
    forwardedAttrs (terminator_spawnattr_setdisclaim os attr disclaim).2 = [attr] ∧
    terminator_spawnattr_setdisclaim os NULL disclaim =
      (os NULL disclaim, [Event.callOS NULL disclaim]) :=
  ⟨rfl, rfl⟩

/-- **C10.** The shim itself never dereferences the attributes pointer: its
trace holds no `deref` event, so no read or write through the handle happens
in its own body — the only action is the call of the OS primitive. -/
theorem C10_never_dereferences (os : OSPrim) (attr : Ptr) (disclaim : Int) :
    ∀ e ∈ (terminator_spawnattr_setdisclaim os attr disclaim).2, e.isDeref = false := by
  intro e he
  simp only [terminator_spawnattr_setdisclaim, List.mem_singleton] at he
  subst he
  rfl

/-- Witness for C10 at concrete inputs: the one event of the concrete trace
is not a dereference. -/
theorem C10_never_dereferences_witness :
    (Event.callOS 1 1).isDeref = false :=
  C10_never_dereferences (fun _ _ => 0) 1 1 (Event.callOS 1 1)
    (by simp [terminator_spawnattr_setdisclaim])
